import Mathlib

/-!
Verification of the Cycles renderer export module (renderers/Cycles.py).

The module is a set of string-template formatters plus a renderer
invocation routine.  Python string formatting with `str.format` is
embedded faithfully as a list of chunks: literal template text
alternating with substituted fields.  A literal chunk holds template
text exactly as it appears in the source; a `str` chunk is a
substituted string field such as the object name; a `num` chunk is a
substituted numeric field; a `nat` chunk is a substituted vertex
index.  Rendering the chunk list left to right with a numeral printer
yields the exact text the Python code produces; all structural claims
about the produced text are stated on the chunk list, where
substituted field values are data, not markup.

Numeric scalars are modelled as rationals (the only numeric
operations in the module are multiplication by 100 and the exact
comparison `alpha < 1`, both exact in floating point for the values
concerned); the camera formatter, whose angle conversion divides by
pi, is modelled over the reals.
-/

namespace Cycles

/-- Vector with three scalar components, as FreeCAD's `Vector`. -/
structure Vec3 (α : Type) where
  x : α
  y : α
  z : α
deriving DecidableEq, Repr

/-- Cross product of two vectors, as FreeCAD's `Vector.cross`. -/
def Vec3.cross {α : Type} [Ring α] (a b : Vec3 α) : Vec3 α :=
  ⟨a.y * b.z - a.z * b.y, a.z * b.x - a.x * b.z, a.x * b.y - a.y * b.x⟩

/-- One chunk of formatted output: literal template text, or one
substituted field of `str.format`. -/
inductive Chunk (α : Type) where
  | lit : String → Chunk α
  | str : String → Chunk α
  | num : α → Chunk α
  | nat : Nat → Chunk α
deriving DecidableEq, Repr

/-- Text of one chunk, given a printer for the scalar type. -/
def Chunk.renderWith {α : Type} (f : α → String) : Chunk α → String
  | .lit s => s
  | .str s => s
  | .num q => f q
  | .nat k => toString k

/-- Text of a whole chunk list: the string the Python code returns. -/
def renderOut {α : Type} (f : α → String) (l : List (Chunk α)) : String :=
  (l.map (Chunk.renderWith f)).foldr (fun a b => a ++ b) ""

/-- Boolean test that the first character list starts the second. -/
def leadsWith : List Char → List Char → Bool
  | [], _ => true
  | _ :: _, [] => false
  | a :: as, b :: bs => a == b && leadsWith as bs

/-- Boolean test that string `t` is a suffix of string `s`. -/
def strEndsWith (s t : String) : Bool :=
  leadsWith t.data.reverse s.data.reverse

/-- Number of positions of `s` at which `pat` occurs. -/
def occursCount (pat : List Char) : List Char → Nat
  | [] => 0
  | c :: rest => (if leadsWith pat (c :: rest) then 1 else 0) + occursCount pat rest

/-- Literal template strings of a chunk list, in order. -/
def litsOf {α : Type} : List (Chunk α) → List String
  | [] => []
  | .lit s :: rest => s :: litsOf rest
  | _ :: rest => litsOf rest

/-- Number of occurrences of `pat` inside the literal template text of
a chunk list (substituted fields are data, not template text). -/
def litOccs {α : Type} (pat : String) (l : List (Chunk α)) : Nat :=
  ((litsOf l).map (fun s => occursCount pat.data s.data)).sum

/-- First numeric field that directly follows literal text ending in
the opening of the given attribute: the value written for that
attribute. -/
def attrNum {α : Type} (attr : String) : List (Chunk α) → Option α
  | [] => none
  | .lit s :: rest =>
      if strEndsWith s (attr ++ "=\"") then
        match rest with
        | .num q :: _ => some q
        | _ => attrNum attr rest
      else attrNum attr rest
  | _ :: rest => attrNum attr rest

/-- First space-separated numeric triple that directly follows literal
text ending in the opening of the given attribute: the vector written
for that attribute. -/
def attrVec3 {α : Type} (attr : String) : List (Chunk α) → Option (Vec3 α)
  | [] => none
  | .lit s :: rest =>
      if strEndsWith s (attr ++ "=\"") then
        match rest with
        | .num qx :: .lit " " :: .num qy :: .lit " " :: .num qz :: _ =>
            some ⟨qx, qy, qz⟩
        | _ => attrVec3 attr rest
      else attrVec3 attr rest
  | _ :: rest => attrVec3 attr rest

/-- Chunk-level counterpart of `sep.join(parts)`. -/
def joinChunks {α : Type} (sep : String) : List (List (Chunk α)) → List (Chunk α)
  | [] => []
  | [x] => x
  | x :: y :: xs => x ++ Chunk.lit sep :: joinChunks sep (y :: xs)

/-! ### Camera formatter -/

/-- Rotation handle of the camera: FreeCAD exposes `Angle` (radians)
and `Axis`. -/
structure CamRotation where
  Angle : ℝ
  Axis : Vec3 ℝ

/-- Python `math.degrees`: radians to degrees. -/
noncomputable def degrees (x : ℝ) : ℝ := x * 180 / Real.pi

/-- Embedding of `write_camera` (Cycles.py, lines 31-48): one
transform element carrying rotation (angle in degrees, then axis),
translation and the mirrored-Z scale, then a perspective camera. -/
noncomputable def write_camera (pos : Vec3 ℝ) (rot : CamRotation)
    (_updir _target : Vec3 ℝ) (name : String) : List (Chunk ℝ) :=
  [Chunk.lit "\n    <!-- Generated by FreeCAD - Camera \x27", Chunk.str name,
   Chunk.lit "\x27 -->\n    <transform rotate=\"", Chunk.num (degrees rot.Angle),
   Chunk.lit " ", Chunk.num rot.Axis.x,
   Chunk.lit " ", Chunk.num rot.Axis.y,
   Chunk.lit " ", Chunk.num rot.Axis.z,
   Chunk.lit "\"\n               translate=\"", Chunk.num pos.x,
   Chunk.lit " ", Chunk.num pos.y,
   Chunk.lit " ", Chunk.num pos.z,
   Chunk.lit "\"\n               scale=\"1 1 -1\">\n        <camera type=\"perspective\"/>\n    </transform>"]

/-! ### Object (mesh) formatter -/

/-- View object handle: only its `Name` is read. -/
structure ViewObj where
  Name : String

/-- Mesh handle: `Topology` is the pair of the vertex point list and
the per-face vertex index lists. -/
structure Mesh where
  Topology : List (Vec3 ℚ) × List (List Nat)

/-- One point formatted by the Python fragment that writes its three
coordinates separated by single spaces. -/
def pointChunks (p : Vec3 ℚ) : List (Chunk ℚ) :=
  [Chunk.num p.x, Chunk.lit " ", Chunk.num p.y, Chunk.lit " ", Chunk.num p.z]

/-- One face formatted with three positional fields: the first three
indices are written, further indices are ignored by `str.format`, and
fewer than three indices raises, modelled as `none`. -/
def formatFace {α : Type} : List Nat → Option (List (Chunk α))
  | a :: b :: c :: _ =>
      some [Chunk.nat a, Chunk.lit " ", Chunk.nat b, Chunk.lit " ", Chunk.nat c]
  | _ => none

/-- All faces formatted in order; the whole list fails if any face
fails (the Python list comprehension propagates the exception). -/
def formatFacesList {α : Type} : List (List Nat) → Option (List (List (Chunk α)))
  | [] => some []
  | f :: fs =>
      match formatFace f, formatFacesList fs with
      | some c, some cs => some (c :: cs)
      | _, _ => none

/-- Template `snippet1` of `write_object`: shader opening and the
diffuse term. -/
def snippet1 (n : String) (color : ℚ × ℚ × ℚ) : List (Chunk ℚ) :=
  [Chunk.lit "\n    <!-- Generated by FreeCAD - Object \x27", Chunk.str n,
   Chunk.lit "\x27 -->\n    <shader name=\"", Chunk.str n,
   Chunk.lit "_mat\">\n        <diffuse_bsdf name=\"", Chunk.str n,
   Chunk.lit "_bsdf\" color=\"", Chunk.num color.1,
   Chunk.lit ", ", Chunk.num color.2.1,
   Chunk.lit ", ", Chunk.num color.2.2,
   Chunk.lit "\"/>"]

/-- Template `snippet2a` of `write_object`: transparent term, mix
closure parameterised by the opacity, and the three connections. -/
def snippet2a (n : String) (a : ℚ) : List (Chunk ℚ) :=
  [Chunk.lit "\n        <transparent_bsdf name=\"", Chunk.str n,
   Chunk.lit "_trans\" color=\"1.0, 1.0, 1.0\"/>\n        <mix_closure name=\"", Chunk.str n,
   Chunk.lit "_mix\" fac=\"", Chunk.num a,
   Chunk.lit "\"/>\n        <connect from=\"", Chunk.str n,
   Chunk.lit "_trans bsdf\"  to=\"", Chunk.str n,
   Chunk.lit "_mix closure1\"/>\n        <connect from=\"", Chunk.str n,
   Chunk.lit "_bsdf bsdf\"   to=\"", Chunk.str n,
   Chunk.lit "_mix closure2\"/>\n        <connect from=\"", Chunk.str n,
   Chunk.lit "_mix closure\" to=\"output surface\"/>\n    </shader>"]

/-- Template `snippet2b` of `write_object`: the diffuse term connected
directly to the shader output. -/
def snippet2b (n : String) : List (Chunk ℚ) :=
  [Chunk.lit "\n        <connect from=\"", Chunk.str n,
   Chunk.lit "_bsdf bsdf\"   to=\"output surface\"/>\n    </shader>"]

/-- Template `snippet3` of `write_object`: the state block with the
mesh fields P, nverts and verts. -/
def snippet3 (n : String) (p i v : List (Chunk ℚ)) : List (Chunk ℚ) :=
  [Chunk.lit "\n    <state shader=\"", Chunk.str n,
   Chunk.lit "_mat\">\n        <mesh P=\""] ++ p ++
  [Chunk.lit "\"\n              nverts=\""] ++ i ++
  [Chunk.lit "\"\n              verts=\""] ++ v ++
  [Chunk.lit "\"/>\n    </state>\n"]

/-- Embedding of `write_object` (Cycles.py, lines 51-96): shader block
chosen by the opacity threshold, then the mesh state block. -/
def write_object (viewobj : ViewObj) (mesh : Mesh) (color : ℚ × ℚ × ℚ)
    (alpha : ℚ) : Option (List (Chunk ℚ)) :=
  match formatFacesList mesh.Topology.2 with
  | none => none
  | some verts =>
      let n := viewobj.Name
      let points := mesh.Topology.1.map pointChunks
      let nverts : List (List (Chunk ℚ)) := List.replicate verts.length [Chunk.lit "3"]
      some (snippet1 n color
        ++ (if alpha < 1 then snippet2a n alpha else snippet2b n)
        ++ snippet3 n (joinChunks "  " points) (joinChunks "  " nverts)
             (joinChunks "  " verts))

/-! ### Light formatters -/

/-- Rotation handle of a placement: FreeCAD exposes `multVec`, the
application of the rotation to a vector. -/
structure Rotation where
  multVec : Vec3 ℚ → Vec3 ℚ

/-- Placement handle: position and rotation. -/
structure Placement where
  Base : Vec3 ℚ
  Rotation : Rotation

/-- Embedding of `write_pointlight` (Cycles.py, lines 99-124):
emission shader with strength `power * 100`, then the point light
state. -/
def write_pointlight (view : ViewObj) (location : Vec3 ℚ) (color : ℚ × ℚ × ℚ)
    (power : ℚ) : List (Chunk ℚ) :=
  [Chunk.lit "\n    <!-- Generated by FreeCAD - Pointlight \x27", Chunk.str view.Name,
   Chunk.lit "\x27 -->\n    <shader name=\"", Chunk.str view.Name,
   Chunk.lit "_shader\">\n        <emission name=\"", Chunk.str view.Name,
   Chunk.lit "_emit\"\n                  color=\"", Chunk.num color.1,
   Chunk.lit " ", Chunk.num color.2.1,
   Chunk.lit " ", Chunk.num color.2.2,
   Chunk.lit "\"\n                  strength=\"", Chunk.num (power * 100),
   Chunk.lit "\"/>\n        <connect from=\"", Chunk.str view.Name,
   Chunk.lit "_emit emission\"\n                 to=\"output surface\"/>\n    </shader>\n    <state shader=\"", Chunk.str view.Name,
   Chunk.lit "_shader\">\n        <light type=\"point\"\n               co=\"", Chunk.num location.x,
   Chunk.lit " ", Chunk.num location.y,
   Chunk.lit " ", Chunk.num location.z,
   Chunk.lit "\"\n               strength=\"1 1 1\"/>\n    </state>\n"]

/-- Embedding of `write_arealight` (Cycles.py, lines 127-166): the two
in-plane axes are the rotation applied to the X and Y unit vectors,
the direction is their cross product, the emission strength is
`power * 100`. -/
def write_arealight (name : String) (pos : Placement) (size_u size_v : ℚ)
    (color : ℚ × ℚ × ℚ) (power : ℚ) : List (Chunk ℚ) :=
  let rot := pos.Rotation
  let axis1 := rot.multVec ⟨1, 0, 0⟩
  let axis2 := rot.multVec ⟨0, 1, 0⟩
  let direction := axis1.cross axis2
  [Chunk.lit "\n    <!-- Generated by FreeCAD - Area light \x27", Chunk.str name,
   Chunk.lit "\x27 -->\n    <shader name=\"", Chunk.str name,
   Chunk.lit "_shader\">\n        <emission name=\"", Chunk.str name,
   Chunk.lit "_emit\"\n                  color=\"", Chunk.num color.1,
   Chunk.lit " ", Chunk.num color.2.1,
   Chunk.lit " ", Chunk.num color.2.2,
   Chunk.lit "\"\n                  strength=\"", Chunk.num (power * 100),
   Chunk.lit "\"/>\n        <connect from=\"", Chunk.str name,
   Chunk.lit "_emit emission\"\n                 to=\"output surface\"/>\n    </shader>\n    <state shader=\"", Chunk.str name,
   Chunk.lit "_shader\">\n        <light type=\"area\"\n               co=\"", Chunk.num pos.Base.x,
   Chunk.lit " ", Chunk.num pos.Base.y,
   Chunk.lit " ", Chunk.num pos.Base.z,
   Chunk.lit "\"\n               strength=\"1 1 1\"\n               axisu=\"", Chunk.num axis1.x,
   Chunk.lit " ", Chunk.num axis1.y,
   Chunk.lit " ", Chunk.num axis1.z,
   Chunk.lit "\"\n               axisv=\"", Chunk.num axis2.x,
   Chunk.lit " ", Chunk.num axis2.y,
   Chunk.lit " ", Chunk.num axis2.z,
   Chunk.lit "\"\n               sizeu=\"", Chunk.num size_u,
   Chunk.lit "\"\n               sizev=\"", Chunk.num size_v,
   Chunk.lit "\"\n               size=\"1\"\n               dir=\"", Chunk.num direction.x,
   Chunk.lit " ", Chunk.num direction.y,
   Chunk.lit " ", Chunk.num direction.z,
   Chunk.lit "\" />\n    </state>\n"]

/-! ### Renderer invocation -/

/-- Project handle: only `PageResult`, the path of the scene
description file, is read. -/
structure Project where
  PageResult : String

/-- Observable outcome of one `render` call: console error and
message lines, the commands passed to `os.system`, and the returned
string. -/
structure RenderOutcome where
  consoleErrors : List String
  consoleMessages : List String
  systemCalls : List String
  ret : String
deriving DecidableEq, Repr

/-- Embedding of `render` (Cycles.py, lines 169-207).  `params` is the
preferences store (`GetString` with key and default); `osExit` is the
environment's exit status for a command, whose value the code
discards.  The `pfx` argument embeds the `prefix` parameter, which
the code overwrites from the preferences before any use. -/
def render (params : String → String → String) (osExit : String → ℤ)
    (project : Project) (pfx : String) (external : Bool) (output : String)
    (width height : ℤ) : RenderOutcome :=
  let pfx0 := params "Prefix" ""
  let pfx1 := if pfx0 ≠ "" then pfx0 ++ " " else pfx0
  let rpath := params "CyclesPath" ""
  let args0 := params "CyclesParameters" ""
  let args1 := args0 ++ " --output " ++ output
  let args2 := if !external then args1 ++ " --background" else args1
  if rpath = "" then
    { consoleErrors := ["Unable to locate renderer executable. Please set the correct path in Edit -> Preferences -> Render"],
      consoleMessages := [], systemCalls := [], ret := "" }
  else
    let args3 := args2 ++ " --width " ++ toString width
    let args4 := args3 ++ " --height " ++ toString height
    let cmd := pfx1 ++ rpath ++ " " ++ args4 ++ " " ++ project.PageResult
    let _exitStatus := osExit cmd
    { consoleErrors := [], consoleMessages := [cmd ++ "\n"],
      systemCalls := [cmd], ret := output }

/-! ### Helper lemmas -/

theorem leadsWith_le_length : ∀ (p l : List Char), leadsWith p l = true → p.length ≤ l.length
  | [], l, _ => by simp
  | _ :: _, [], h => by simp [leadsWith] at h
  | a :: as, b :: bs, h => by
      simp only [leadsWith, Bool.and_eq_true] at h
      have ih := leadsWith_le_length as bs h.2
      simp only [List.length_cons]
      omega

theorem occursCount_eq_zero : ∀ (pat s : List Char), s.length < pat.length → occursCount pat s = 0
  | _, [], _ => rfl
  | pat, c :: rest, h => by
      have hlw : leadsWith pat (c :: rest) = false := by
        cases hb : leadsWith pat (c :: rest) with
        | false => rfl
        | true =>
            have := leadsWith_le_length pat (c :: rest) hb
            omega
      have ih := occursCount_eq_zero pat rest (by simp only [List.length_cons] at h; omega)
      simp [occursCount, hlw, ih]

theorem litsOf_append {α : Type} : ∀ (xs ys : List (Chunk α)),
    litsOf (xs ++ ys) = litsOf xs ++ litsOf ys
  | [], _ => rfl
  | Chunk.lit s :: xs, ys => by simp [litsOf, litsOf_append xs ys]
  | Chunk.str _ :: xs, ys => by simp [litsOf, litsOf_append xs ys]
  | Chunk.num _ :: xs, ys => by simp [litsOf, litsOf_append xs ys]
  | Chunk.nat _ :: xs, ys => by simp [litsOf, litsOf_append xs ys]

theorem litOccs_append {α : Type} (pat : String) (xs ys : List (Chunk α)) :
    litOccs pat (xs ++ ys) = litOccs pat xs + litOccs pat ys := by
  simp [litOccs, litsOf_append]

theorem litOccs_nil {α : Type} (pat : String) : litOccs pat ([] : List (Chunk α)) = 0 := rfl

theorem litOccs_eq_zero {α : Type} (pat : String) (l : List (Chunk α))
    (hpat : 3 ≤ pat.data.length) (h : ∀ s ∈ litsOf l, s.data.length ≤ 2) :
    litOccs pat l = 0 := by
  rw [litOccs]
  apply List.sum_eq_zero
  intro x hx
  rcases List.mem_map.mp hx with ⟨s, hs, rfl⟩
  exact occursCount_eq_zero _ _ (by have := h s hs; omega)

theorem strEndsWith_eq_false (s t : String) (h : s.data.length < t.data.length) :
    strEndsWith s t = false := by
  cases hb : strEndsWith s t with
  | false => rfl
  | true =>
      exfalso
      rw [strEndsWith] at hb
      have := leadsWith_le_length _ _ hb
      simp only [List.length_reverse] at this
      omega

theorem attrNum_eq_none {α : Type} (attr : String) : ∀ (l : List (Chunk α)),
    (∀ s ∈ litsOf l, strEndsWith s (attr ++ "=\"") = false) → attrNum attr l = none
  | [], _ => rfl
  | Chunk.lit s :: rest, h => by
      have hs : strEndsWith s (attr ++ "=\"") = false := h s (by simp [litsOf])
      have ih := attrNum_eq_none attr rest (fun t ht => h t (by simp [litsOf, ht]))
      simp [attrNum, hs, ih]
  | Chunk.str _ :: rest, h => by
      have ih := attrNum_eq_none attr rest (fun t ht => h t (by simpa [litsOf] using ht))
      simpa [attrNum] using ih
  | Chunk.num _ :: rest, h => by
      have ih := attrNum_eq_none attr rest (fun t ht => h t (by simpa [litsOf] using ht))
      simpa [attrNum] using ih
  | Chunk.nat _ :: rest, h => by
      have ih := attrNum_eq_none attr rest (fun t ht => h t (by simpa [litsOf] using ht))
      simpa [attrNum] using ih

theorem mem_litsOf_joinChunks {α : Type} (sep : String) :
    ∀ (parts : List (List (Chunk α))) (s : String),
      s ∈ litsOf (joinChunks sep parts) → s = sep ∨ ∃ part ∈ parts, s ∈ litsOf part
  | [], _, h => by simp [joinChunks, litsOf] at h
  | [x], s, h => Or.inr ⟨x, by simp, by simpa [joinChunks] using h⟩
  | x :: y :: xs, s, h => by
      rw [joinChunks, litsOf_append] at h
      rcases List.mem_append.mp h with hx | hrest
      · exact Or.inr ⟨x, by simp, hx⟩
      · rw [litsOf] at hrest
        rcases List.mem_cons.mp hrest with hsep | hrest2
        · exact Or.inl hsep
        · rcases mem_litsOf_joinChunks sep (y :: xs) s hrest2 with h1 | ⟨part, hp, hsp⟩
          · exact Or.inl h1
          · exact Or.inr ⟨part, List.mem_cons_of_mem x hp, hsp⟩

theorem litsOf_pointChunks (p : Vec3 ℚ) : litsOf (pointChunks p) = [" ", " "] := rfl

theorem short_points (pts : List (Vec3 ℚ)) :
    ∀ s ∈ litsOf (joinChunks "  " (pts.map pointChunks)), s.data.length ≤ 2 := by
  intro s hs
  rcases mem_litsOf_joinChunks _ _ _ hs with hsep | ⟨part, hp, hsp⟩
  · subst hsep; decide
  · rcases List.mem_map.mp hp with ⟨p, _, rfl⟩
    rw [litsOf_pointChunks] at hsp
    rcases List.mem_cons.mp hsp with h1 | h2
    · subst h1; decide
    · rcases List.mem_cons.mp h2 with h3 | h4
      · subst h3; decide
      · simp at h4

theorem short_nverts (k : Nat) :
    ∀ s ∈ litsOf (joinChunks "  " (List.replicate k ([Chunk.lit "3"] : List (Chunk ℚ)))),
      s.data.length ≤ 2 := by
  intro s hs
  rcases mem_litsOf_joinChunks _ _ _ hs with hsep | ⟨part, hp, hsp⟩
  · subst hsep; decide
  · have hpart := List.eq_of_mem_replicate hp
    subst hpart
    rcases List.mem_cons.mp hsp with h1 | h2
    · subst h1; decide
    · simp [litsOf] at h2

theorem formatFace_lits {α : Type} : ∀ (f : List Nat) (c : List (Chunk α)),
    formatFace f = some c → litsOf c = [" ", " "]
  | _ :: _ :: _ :: _, c, h => by
      rw [formatFace] at h
      injection h with h
      subst h
      rfl
  | [], _, h => by simp [formatFace] at h
  | [_], _, h => by simp [formatFace] at h
  | [_, _], _, h => by simp [formatFace] at h

theorem formatFacesList_lits {α : Type} : ∀ (fs : List (List Nat)) (cs : List (List (Chunk α))),
    formatFacesList fs = some cs → ∀ c ∈ cs, litsOf c = [" ", " "]
  | [], cs, h => by
      rw [formatFacesList] at h
      injection h with h
      subst h
      intro c hc
      simp at hc
  | f :: fs, cs, h => by
      cases hf : formatFace (α := α) f with
      | none => rw [formatFacesList, hf] at h; simp at h
      | some c0 =>
          cases hfs : formatFacesList (α := α) fs with
          | none => rw [formatFacesList, hf, hfs] at h; simp at h
          | some cs0 =>
              rw [formatFacesList, hf, hfs] at h
              injection h with h
              subst h
              intro c hc
              rcases List.mem_cons.mp hc with h1 | h2
              · subst h1; exact formatFace_lits f _ hf
              · exact formatFacesList_lits fs cs0 hfs c h2

theorem short_verts {fs : List (List Nat)} {cs : List (List (Chunk ℚ))}
    (h : formatFacesList fs = some cs) :
    ∀ s ∈ litsOf (joinChunks "  " cs), s.data.length ≤ 2 := by
  intro s hs
  rcases mem_litsOf_joinChunks _ _ _ hs with hsep | ⟨part, hp, hsp⟩
  · subst hsep; decide
  · rw [formatFacesList_lits fs cs h part hp] at hsp
    rcases List.mem_cons.mp hsp with h1 | h2
    · subst h1; decide
    · rcases List.mem_cons.mp h2 with h3 | h4
      · subst h3; decide
      · simp at h4

theorem litOccs_cons_lit {α : Type} (pat s : String) (rest : List (Chunk α)) :
    litOccs pat (Chunk.lit s :: rest) = occursCount pat.data s.data + litOccs pat rest := by
  simp [litOccs, litsOf]

theorem litOccs_cons_str {α : Type} (pat s : String) (rest : List (Chunk α)) :
    litOccs pat (Chunk.str s :: rest) = litOccs pat rest := by
  simp [litOccs, litsOf]

theorem litOccs_cons_num {α : Type} (pat : String) (q : α) (rest : List (Chunk α)) :
    litOccs pat (Chunk.num q :: rest) = litOccs pat rest := by
  simp [litOccs, litsOf]

theorem litOccs_cons_nat {α : Type} (pat : String) (k : Nat) (rest : List (Chunk α)) :
    litOccs pat (Chunk.nat k :: rest) = litOccs pat rest := by
  simp [litOccs, litsOf]

theorem litOccs_snippet3 (pat n : String) (p i v : List (Chunk ℚ)) :
    litOccs pat (snippet3 n p i v) =
      litOccs pat (snippet3 n [] [] []) + (litOccs pat p + litOccs pat i + litOccs pat v) := by
  simp [snippet3, litOccs_append, litOccs_cons_lit, litOccs_cons_str, litOccs_nil]
  omega

theorem litsOf_snippet1 (n : String) (c : ℚ × ℚ × ℚ) :
    litsOf (snippet1 n c) =
      ["\n    <!-- Generated by FreeCAD - Object \x27", "\x27 -->\n    <shader name=\"",
       "_mat\">\n        <diffuse_bsdf name=\"", "_bsdf\" color=\"", ", ", ", ", "\"/>"] := rfl

theorem litsOf_snippet2a (n : String) (a : ℚ) :
    litsOf (snippet2a n a) =
      ["\n        <transparent_bsdf name=\"",
       "_trans\" color=\"1.0, 1.0, 1.0\"/>\n        <mix_closure name=\"",
       "_mix\" fac=\"", "\"/>\n        <connect from=\"", "_trans bsdf\"  to=\"",
       "_mix closure1\"/>\n        <connect from=\"", "_bsdf bsdf\"   to=\"",
       "_mix closure2\"/>\n        <connect from=\"",
       "_mix closure\" to=\"output surface\"/>\n    </shader>"] := rfl

theorem litsOf_snippet2b (n : String) :
    litsOf (snippet2b n) =
      ["\n        <connect from=\"",
       "_bsdf bsdf\"   to=\"output surface\"/>\n    </shader>"] := rfl

theorem litsOf_snippet3 (n : String) (p i v : List (Chunk ℚ)) :
    litsOf (snippet3 n p i v) =
      ["\n    <state shader=\"", "_mat\">\n        <mesh P=\""] ++ litsOf p ++
      (["\"\n              nverts=\""] ++ litsOf i ++
       (["\"\n              verts=\""] ++ litsOf v ++ ["\"/>\n    </state>\n"])) := by
  simp [snippet3, litsOf_append, litsOf]

theorem write_object_some (vo : ViewObj) (mesh : Mesh) (color : ℚ × ℚ × ℚ) (alpha : ℚ)
    (verts : List (List (Chunk ℚ)))
    (h : formatFacesList mesh.Topology.2 = some verts) :
    write_object vo mesh color alpha = some
      (snippet1 vo.Name color
        ++ (if alpha < 1 then snippet2a vo.Name alpha else snippet2b vo.Name)
        ++ snippet3 vo.Name (joinChunks "  " (mesh.Topology.1.map pointChunks))
             (joinChunks "  " (List.replicate verts.length [Chunk.lit "3"]))
             (joinChunks "  " verts)) := by
  simp only [write_object, h]

theorem write_object_inv {vo : ViewObj} {mesh : Mesh} {color : ℚ × ℚ × ℚ} {alpha : ℚ}
    {out : List (Chunk ℚ)} (hout : write_object vo mesh color alpha = some out) :
    ∃ verts, formatFacesList mesh.Topology.2 = some verts ∧
      out = snippet1 vo.Name color
        ++ (if alpha < 1 then snippet2a vo.Name alpha else snippet2b vo.Name)
        ++ snippet3 vo.Name (joinChunks "  " (mesh.Topology.1.map pointChunks))
             (joinChunks "  " (List.replicate verts.length [Chunk.lit "3"]))
             (joinChunks "  " verts) := by
  cases h : formatFacesList mesh.Topology.2 with
  | none => rw [write_object, h] at hout; simp at hout
  | some verts =>
      refine ⟨verts, rfl, ?_⟩
      rw [write_object_some vo mesh color alpha verts h] at hout
      injection hout with hout
      exact hout.symm

theorem formatFace_eq_of_three {α : Type} : ∀ (f : List Nat), 3 ≤ f.length →
    formatFace (α := α) f = some
      [Chunk.nat (f.getD 0 0), Chunk.lit " ", Chunk.nat (f.getD 1 0),
       Chunk.lit " ", Chunk.nat (f.getD 2 0)]
  | _ :: _ :: _ :: _, _ => rfl
  | [], h => absurd h (by simp)
  | [_], h => absurd h (by simp)
  | [_, _], h => absurd h (by simp)

theorem formatFacesList_eq_some {α : Type} : ∀ (fs : List (List Nat)),
    (∀ f ∈ fs, 3 ≤ f.length) →
    formatFacesList (α := α) fs = some (fs.map (fun f =>
      [Chunk.nat (f.getD 0 0), Chunk.lit " ", Chunk.nat (f.getD 1 0),
       Chunk.lit " ", Chunk.nat (f.getD 2 0)]))
  | [], _ => rfl
  | f :: fs, h => by
      have h1 := formatFace_eq_of_three (α := α) f (h f (by simp))
      have h2 := formatFacesList_eq_some (α := α) fs (fun g hg => h g (by simp [hg]))
      simp [formatFacesList, h1, h2]

theorem formatFace_eq_none {α : Type} : ∀ (f : List Nat), f.length < 3 →
    formatFace (α := α) f = none
  | [], _ => rfl
  | [_], _ => rfl
  | [_, _], _ => rfl
  | _ :: _ :: _ :: _, h => by simp at h; omega

theorem formatFacesList_eq_none {α : Type} : ∀ (fs : List (List Nat)) (f : List Nat),
    f ∈ fs → f.length < 3 → formatFacesList (α := α) fs = none
  | g :: fs, f, hmem, hlen => by
      rcases List.mem_cons.mp hmem with h1 | htail
      · subst h1
        have hf := formatFace_eq_none (α := α) f hlen
        cases hX : formatFacesList (α := α) fs <;> simp [formatFacesList, hf, hX]
      · have ih := formatFacesList_eq_none (α := α) fs f htail hlen
        cases hg : formatFace (α := α) g <;> simp [formatFacesList, hg, ih]

/-! ### Claim theorems -/

/-- Claim C1: for every opacity strictly below 1 the object output holds
exactly one transparent term and exactly one mix closure whose fac
attribute equals the opacity, with the transparent and diffuse terms
connected into the mix and the mix connected to the shader output; for
opacity equal to 1 the output holds no transparency or mix term and the
diffuse term connects directly to the shader output. -/
theorem claim_C1_opacity_threshold (vo : ViewObj) (mesh : Mesh) (color : ℚ × ℚ × ℚ)
    (alpha : ℚ) (out : List (Chunk ℚ))
    (hout : write_object vo mesh color alpha = some out) :
    (alpha < 1 →
      litOccs "<transparent_bsdf" out = 1 ∧
      litOccs "<mix_closure" out = 1 ∧
      attrNum "fac" out = some alpha ∧
      litOccs "_trans bsdf\"  to=\"" out = 1 ∧
      litOccs "_mix closure1\"/>" out = 1 ∧
      litOccs "_bsdf bsdf\"   to=\"" out = 1 ∧
      litOccs "_mix closure2\"/>" out = 1 ∧
      litOccs "_mix closure\" to=\"output surface\"/>" out = 1) ∧
    (alpha = 1 →
      litOccs "<transparent_bsdf" out = 0 ∧
      litOccs "<mix_closure" out = 0 ∧
      attrNum "fac" out = none ∧
      litOccs "_bsdf bsdf\"   to=\"output surface\"/>" out = 1) := by
  obtain ⟨verts, hfl, rfl⟩ := write_object_inv hout
  have hdecomp : ∀ pat : String, 3 ≤ pat.data.length →
      litOccs pat (snippet1 vo.Name color
        ++ (if alpha < 1 then snippet2a vo.Name alpha else snippet2b vo.Name)
        ++ snippet3 vo.Name (joinChunks "  " (mesh.Topology.1.map pointChunks))
             (joinChunks "  " (List.replicate verts.length [Chunk.lit "3"]))
             (joinChunks "  " verts)) =
      litOccs pat (snippet1 vo.Name color)
        + litOccs pat (if alpha < 1 then snippet2a vo.Name alpha else snippet2b vo.Name)
        + litOccs pat (snippet3 vo.Name [] [] []) := by
    intro pat hpat
    rw [litOccs_append, litOccs_append, litOccs_snippet3,
        litOccs_eq_zero pat _ hpat (short_points mesh.Topology.1),
        litOccs_eq_zero pat _ hpat (short_nverts verts.length),
        litOccs_eq_zero pat _ hpat (short_verts hfl)]
    omega
  constructor
  · intro hlt
    refine ⟨?_, ?_, ?_, ?_, ?_, ?_, ?_, ?_⟩
    · rw [hdecomp _ (by decide), if_pos hlt]; rfl
    · rw [hdecomp _ (by decide), if_pos hlt]; rfl
    · rw [if_pos hlt]; rfl
    · rw [hdecomp _ (by decide), if_pos hlt]; rfl
    · rw [hdecomp _ (by decide), if_pos hlt]; rfl
    · rw [hdecomp _ (by decide), if_pos hlt]; rfl
    · rw [hdecomp _ (by decide), if_pos hlt]; rfl
    · rw [hdecomp _ (by decide), if_pos hlt]; rfl
  · intro h1
    have hnlt : ¬ alpha < 1 := by rw [h1]; exact lt_irrefl 1
    refine ⟨?_, ?_, ?_, ?_⟩
    · rw [hdecomp _ (by decide), if_neg hnlt]; rfl
    · rw [hdecomp _ (by decide), if_neg hnlt]; rfl
    · apply attrNum_eq_none
      intro s hs
      rw [litsOf_append, litsOf_append, if_neg hnlt, litsOf_snippet1, litsOf_snippet2b,
          litsOf_snippet3] at hs
      rcases List.mem_append.mp hs with hs12 | hs3
      · rcases List.mem_append.mp hs12 with hs1 | hs2
        · fin_cases hs1 <;> decide
        · fin_cases hs2 <;> decide
      · rcases List.mem_append.mp hs3 with hfix | hrest
        · rcases List.mem_append.mp hfix with ha | hp
          · fin_cases ha <;> decide
          · exact strEndsWith_eq_false s _ (by
              have := short_points mesh.Topology.1 s hp
              have h5 : ("fac" ++ "=\"").data.length = 5 := by decide
              omega)
        · rcases List.mem_append.mp hrest with hni | hrest2
          · rcases List.mem_append.mp hni with hb | hi
            · fin_cases hb <;> decide
            · exact strEndsWith_eq_false s _ (by
                have := short_nverts verts.length s hi
                have h5 : ("fac" ++ "=\"").data.length = 5 := by decide
                omega)
          · rcases List.mem_append.mp hrest2 with hvv | hd
            · rcases List.mem_append.mp hvv with hc | hv
              · fin_cases hc <;> decide
              · exact strEndsWith_eq_false s _ (by
                  have := short_verts hfl s hv
                  have h5 : ("fac" ++ "=\"").data.length = 5 := by decide
                  omega)
            · fin_cases hd <;> decide
    · rw [hdecomp _ (by decide), if_neg hnlt]; rfl

/-- Witness for C1 at a concrete triangle mesh: opacity one half takes
the transparent-mix branch, opacity one takes the direct branch. -/
theorem claim_C1_opacity_threshold_witness :
    ((1 : ℚ)/2 < 1 ∧
      litOccs "<transparent_bsdf"
        ((write_object ⟨"o"⟩ ⟨([⟨0,0,0⟩, ⟨1,0,0⟩, ⟨0,1,0⟩], [[0,1,2]])⟩ (1,0,0) (1/2)).getD []) = 1 ∧
      attrNum "fac"
        ((write_object ⟨"o"⟩ ⟨([⟨0,0,0⟩, ⟨1,0,0⟩, ⟨0,1,0⟩], [[0,1,2]])⟩ (1,0,0) (1/2)).getD []) = some (1/2)) ∧
    (litOccs "<transparent_bsdf"
        ((write_object ⟨"o"⟩ ⟨([⟨0,0,0⟩, ⟨1,0,0⟩, ⟨0,1,0⟩], [[0,1,2]])⟩ (1,0,0) 1).getD []) = 0 ∧
      attrNum "fac"
        ((write_object ⟨"o"⟩ ⟨([⟨0,0,0⟩, ⟨1,0,0⟩, ⟨0,1,0⟩], [[0,1,2]])⟩ (1,0,0) 1).getD []) = none) := by
  have h1 := (claim_C1_opacity_threshold ⟨"o"⟩ ⟨([⟨0,0,0⟩, ⟨1,0,0⟩, ⟨0,1,0⟩], [[0,1,2]])⟩
    (1,0,0) (1/2) _ rfl).1 (by norm_num)
  have h2 := (claim_C1_opacity_threshold ⟨"o"⟩ ⟨([⟨0,0,0⟩, ⟨1,0,0⟩, ⟨0,1,0⟩], [[0,1,2]])⟩
    (1,0,0) 1 _ rfl).2 rfl
  exact ⟨⟨by norm_num, h1.1, h1.2.2.1⟩, h2.1, h2.2.2.1⟩

/-- Claim C2: the emission strength written by the point light and the
area light formatters is the input power multiplied by exactly 100. -/
theorem claim_C2_power_scaling (view : ViewObj) (location : Vec3 ℚ) (c1 : ℚ × ℚ × ℚ)
    (name : String) (pos : Placement) (size_u size_v : ℚ) (c2 : ℚ × ℚ × ℚ)
    (power : ℚ) (hp : 0 ≤ power) :
    attrNum "strength" (write_pointlight view location c1 power) = some (power * 100) ∧
    attrNum "strength" (write_arealight name pos size_u size_v c2 power) = some (power * 100) :=
  ⟨rfl, rfl⟩

/-- Witness for C2 at power 2: both formatters write strength 200. -/
theorem claim_C2_power_scaling_witness :
    (0 : ℚ) ≤ 2 ∧
    attrNum "strength" (write_pointlight ⟨"L"⟩ ⟨0,0,0⟩ (1,1,1) 2) = some (2 * 100) ∧
    attrNum "strength" (write_arealight "A" ⟨⟨0,0,0⟩, ⟨fun v => v⟩⟩ 1 1 (1,1,1) 2) = some (2 * 100) :=
  ⟨by norm_num, claim_C2_power_scaling ⟨"L"⟩ ⟨0,0,0⟩ (1,1,1) "A" ⟨⟨0,0,0⟩, ⟨fun v => v⟩⟩
    1 1 (1,1,1) 2 (by norm_num)⟩

/-- Claim C3: the area light's dir attribute is the cross product
axis1 x axis2, where axis1 and axis2 are the placement rotation
applied to the unit X and unit Y vectors, and axis1 and axis2 are
written as the axisu and axisv attributes. -/
theorem claim_C3_arealight_axes (name : String) (pos : Placement) (size_u size_v : ℚ)
    (color : ℚ × ℚ × ℚ) (power : ℚ) :
    attrVec3 "dir" (write_arealight name pos size_u size_v color power) =
      some ((pos.Rotation.multVec ⟨1, 0, 0⟩).cross (pos.Rotation.multVec ⟨0, 1, 0⟩)) ∧
    attrVec3 "axisu" (write_arealight name pos size_u size_v color power) =
      some (pos.Rotation.multVec ⟨1, 0, 0⟩) ∧
    attrVec3 "axisv" (write_arealight name pos size_u size_v color power) =
      some (pos.Rotation.multVec ⟨0, 1, 0⟩) :=
  ⟨rfl, rfl, rfl⟩

/-- Claim C4: with an empty renderer executable path, render prints an
error, returns the empty string, and calls no external process. -/
theorem claim_C4_empty_path_error (params : String → String → String) (osExit : String → ℤ)
    (project : Project) (pfx : String) (external : Bool) (output : String)
    (width height : ℤ) (h : params "CyclesPath" "" = "") :
    (render params osExit project pfx external output width height).consoleErrors ≠ [] ∧
    (render params osExit project pfx external output width height).ret = "" ∧
    (render params osExit project pfx external output width height).systemCalls = [] := by
  refine ⟨?_, ?_, ?_⟩ <;> simp [render, h]

/-- Witness for C4: an all-default preferences store has an empty
CyclesPath, so render errors, returns empty, and runs nothing. -/
theorem claim_C4_empty_path_error_witness :
    ((fun _ d => d) : String → String → String) "CyclesPath" "" = "" ∧
    ((render (fun _ d => d) (fun _ => 0) ⟨"scene.xml"⟩ "p" true "out.png" 800 600).consoleErrors ≠ [] ∧
     (render (fun _ d => d) (fun _ => 0) ⟨"scene.xml"⟩ "p" true "out.png" 800 600).ret = "" ∧
     (render (fun _ d => d) (fun _ => 0) ⟨"scene.xml"⟩ "p" true "out.png" 800 600).systemCalls = []) :=
  ⟨rfl, claim_C4_empty_path_error (fun _ d => d) (fun _ => 0) ⟨"scene.xml"⟩ "p" true
    "out.png" 800 600 rfl⟩

/-- Claim C5: with a non-empty executable path, the assembled command
line is, in order: the optional prefix token, the executable path, the
stored extra parameters, the output option with the output path, the
background flag exactly when external is false, the width option, the
height option, and the scene description file path. -/
theorem claim_C5_command_line_order (params : String → String → String) (osExit : String → ℤ)
    (project : Project) (pfx : String) (external : Bool) (output : String)
    (width height : ℤ) (h : params "CyclesPath" "" ≠ "") :
    (render params osExit project pfx external output width height).systemCalls =
      [(if params "Prefix" "" ≠ "" then params "Prefix" "" ++ " " else params "Prefix" "")
        ++ params "CyclesPath" "" ++ " "
        ++ params "CyclesParameters" ""
        ++ " --output " ++ output
        ++ (if external then "" else " --background")
        ++ " --width " ++ toString width
        ++ " --height " ++ toString height
        ++ " " ++ project.PageResult] := by
  cases external <;> simp [render, h, String.append_assoc]

/-- Witness for C5: a store with only CyclesPath set and external
false yields the background flag in the expected position. -/
theorem claim_C5_command_line_order_witness :
    ((fun k d => if k = "CyclesPath" then "cycles" else d) : String → String → String)
        "CyclesPath" "" ≠ "" ∧
    (render (fun k d => if k = "CyclesPath" then "cycles" else d) (fun _ => 0)
        ⟨"scene.xml"⟩ "p" false "out.png" 800 600).systemCalls =
      ["cycles  --output out.png --background --width 800 --height 600 scene.xml"] :=
  ⟨by decide,
   (claim_C5_command_line_order (fun k d => if k = "CyclesPath" then "cycles" else d)
      (fun _ => 0) ⟨"scene.xml"⟩ "p" false "out.png" 800 600 (by decide)).trans (by decide)⟩

/-- Claim C6: with a non-empty executable path, render issues exactly
one external call and returns the output path unconditionally; the
exit status of the external process is never inspected, so the whole
outcome is independent of it. -/
theorem claim_C6_unconditional_return (params : String → String → String)
    (osExit osExit2 : String → ℤ) (project : Project) (pfx : String) (external : Bool)
    (output : String) (width height : ℤ) (h : params "CyclesPath" "" ≠ "") :
    (render params osExit project pfx external output width height).ret = output ∧
    (render params osExit project pfx external output width height).systemCalls.length = 1 ∧
    render params osExit project pfx external output width height =
      render params osExit2 project pfx external output width height := by
  refine ⟨?_, ?_, ?_⟩ <;> simp [render, h]

/-- Witness for C6: with CyclesPath set, render returns the output
path and is unchanged under two different exit status environments. -/
theorem claim_C6_unconditional_return_witness :
    ((fun k d => if k = "CyclesPath" then "cycles" else d) : String → String → String)
        "CyclesPath" "" ≠ "" ∧
    ((render (fun k d => if k = "CyclesPath" then "cycles" else d) (fun _ => 0)
        ⟨"scene.xml"⟩ "p" false "out.png" 800 600).ret = "out.png" ∧
     (render (fun k d => if k = "CyclesPath" then "cycles" else d) (fun _ => 0)
        ⟨"scene.xml"⟩ "p" false "out.png" 800 600).systemCalls.length = 1 ∧
     render (fun k d => if k = "CyclesPath" then "cycles" else d) (fun _ => 0)
        ⟨"scene.xml"⟩ "p" false "out.png" 800 600 =
       render (fun k d => if k = "CyclesPath" then "cycles" else d) (fun _ => 1)
        ⟨"scene.xml"⟩ "p" false "out.png" 800 600) :=
  ⟨by decide,
   claim_C6_unconditional_return (fun k d => if k = "CyclesPath" then "cycles" else d)
     (fun _ => 0) (fun _ => 1) ⟨"scene.xml"⟩ "p" false "out.png" 800 600 (by decide)⟩

/-- Claim C7: the camera transform's rotation angle is the input angle
converted from radians to degrees (half pi maps to 90), and it is
followed by the rotation axis components. -/
theorem claim_C7_camera_degrees (pos : Vec3 ℝ) (rot : CamRotation)
    (updir target : Vec3 ℝ) (name : String) :
    attrNum "rotate" (write_camera pos rot updir target name) = some (degrees rot.Angle) ∧
    (∃ pre post, write_camera pos rot updir target name =
      pre ++ [Chunk.num (degrees rot.Angle), Chunk.lit " ", Chunk.num rot.Axis.x,
              Chunk.lit " ", Chunk.num rot.Axis.y, Chunk.lit " ", Chunk.num rot.Axis.z]
          ++ post) ∧
    degrees (Real.pi / 2) = 90 := by
  refine ⟨rfl, ⟨[Chunk.lit "\n    <!-- Generated by FreeCAD - Camera \x27", Chunk.str name,
      Chunk.lit "\x27 -->\n    <transform rotate=\""],
    [Chunk.lit "\"\n               translate=\"", Chunk.num pos.x,
     Chunk.lit " ", Chunk.num pos.y,
     Chunk.lit " ", Chunk.num pos.z,
     Chunk.lit "\"\n               scale=\"1 1 -1\">\n        <camera type=\"perspective\"/>\n    </transform>"],
    rfl⟩, ?_⟩
  rw [degrees]
  field_simp
  ring

/-- Claim C8: for the triangle mesh with vertices at the origin and
the unit X and Y points and the single face 0 1 2, the state block
lists the three coordinate triples in P, the single entry 3 in nverts,
and the single index triple 0 1 2 in verts. -/
theorem claim_C8_triangle_mesh_fields (n : String) (color : ℚ × ℚ × ℚ) (alpha : ℚ) :
    ∃ pre, write_object ⟨n⟩ ⟨([⟨0,0,0⟩, ⟨1,0,0⟩, ⟨0,1,0⟩], [[0,1,2]])⟩ color alpha =
      some (pre ++
        [Chunk.lit "\n    <state shader=\"", Chunk.str n,
         Chunk.lit "_mat\">\n        <mesh P=\"",
         Chunk.num 0, Chunk.lit " ", Chunk.num 0, Chunk.lit " ", Chunk.num 0, Chunk.lit "  ",
         Chunk.num 1, Chunk.lit " ", Chunk.num 0, Chunk.lit " ", Chunk.num 0, Chunk.lit "  ",
         Chunk.num 0, Chunk.lit " ", Chunk.num 1, Chunk.lit " ", Chunk.num 0,
         Chunk.lit "\"\n              nverts=\"", Chunk.lit "3",
         Chunk.lit "\"\n              verts=\"",
         Chunk.nat 0, Chunk.lit " ", Chunk.nat 1, Chunk.lit " ", Chunk.nat 2,
         Chunk.lit "\"/>\n    </state>\n"]) := by
  by_cases h : alpha < 1
  · refine ⟨snippet1 n color ++ snippet2a n alpha, ?_⟩
    rw [write_object_some ⟨n⟩ ⟨([⟨0,0,0⟩, ⟨1,0,0⟩, ⟨0,1,0⟩], [[0,1,2]])⟩ color alpha
      [[Chunk.nat 0, Chunk.lit " ", Chunk.nat 1, Chunk.lit " ", Chunk.nat 2]] rfl, if_pos h]
    rfl
  · refine ⟨snippet1 n color ++ snippet2b n, ?_⟩
    rw [write_object_some ⟨n⟩ ⟨([⟨0,0,0⟩, ⟨1,0,0⟩, ⟨0,1,0⟩], [[0,1,2]])⟩ color alpha
      [[Chunk.nat 0, Chunk.lit " ", Chunk.nat 1, Chunk.lit " ", Chunk.nat 2]] rfl, if_neg h]
    rfl

/-- Claim C9: the prefix argument of render is ignored: any two calls
differing only in it have identical outcomes, the prefix token being
read from the Prefix preference key instead. -/
theorem claim_C9_prefix_ignored (params : String → String → String) (osExit : String → ℤ)
    (project : Project) (p1 p2 : String) (external : Bool) (output : String)
    (width height : ℤ) :
    render params osExit project p1 external output width height =
    render params osExit project p2 external output width height := rfl

/-- Claim C10: the object formatter writes one nverts entry 3 per
face; for each face it writes exactly the face's first three vertex
indices, dropping any further ones; a face with fewer than three
indices makes the formatter fail. -/
theorem claim_C10_triangulation (vo : ViewObj) (mesh : Mesh) (color : ℚ × ℚ × ℚ)
    (alpha : ℚ) :
    ((∀ f ∈ mesh.Topology.2, 3 ≤ f.length) →
      ∃ pre, write_object vo mesh color alpha = some (pre
        ++ [Chunk.lit "\"\n              nverts=\""]
        ++ joinChunks "  " (List.replicate mesh.Topology.2.length
             ([Chunk.lit "3"] : List (Chunk ℚ)))
        ++ [Chunk.lit "\"\n              verts=\""]
        ++ joinChunks "  " (mesh.Topology.2.map (fun f =>
             [Chunk.nat (f.getD 0 0), Chunk.lit " ", Chunk.nat (f.getD 1 0),
              Chunk.lit " ", Chunk.nat (f.getD 2 0)]))
        ++ [Chunk.lit "\"/>\n    </state>\n"])) ∧
    ((∃ f ∈ mesh.Topology.2, f.length < 3) → write_object vo mesh color alpha = none) := by
  constructor
  · intro h
    have hfl := formatFacesList_eq_some (α := ℚ) mesh.Topology.2 h
    refine ⟨snippet1 vo.Name color
      ++ (if alpha < 1 then snippet2a vo.Name alpha else snippet2b vo.Name)
      ++ ([Chunk.lit "\n    <state shader=\"", Chunk.str vo.Name,
           Chunk.lit "_mat\">\n        <mesh P=\""]
          ++ joinChunks "  " (mesh.Topology.1.map pointChunks)), ?_⟩
    rw [write_object_some vo mesh color alpha _ hfl]
    congr 1
    rw [snippet3]
    simp [List.append_assoc, List.length_map]
  · rintro ⟨f, hmem, hlen⟩
    rw [write_object, formatFacesList_eq_none (α := ℚ) mesh.Topology.2 f hmem hlen]

/-- Witness for C10: a four-index face is cut to its first three
indices, and a two-index face makes the formatter fail. -/
theorem claim_C10_triangulation_witness :
    ((∀ f ∈ (⟨([], [[0,1,2,3]])⟩ : Mesh).Topology.2, 3 ≤ f.length) ∧
     ∃ pre, write_object ⟨"o"⟩ ⟨([], [[0,1,2,3]])⟩ (0,0,0) 1 = some (pre
        ++ [Chunk.lit "\"\n              nverts=\""]
        ++ joinChunks "  " (List.replicate (⟨([], [[0,1,2,3]])⟩ : Mesh).Topology.2.length
             ([Chunk.lit "3"] : List (Chunk ℚ)))
        ++ [Chunk.lit "\"\n              verts=\""]
        ++ joinChunks "  " ((⟨([], [[0,1,2,3]])⟩ : Mesh).Topology.2.map (fun f =>
             [Chunk.nat (f.getD 0 0), Chunk.lit " ", Chunk.nat (f.getD 1 0),
              Chunk.lit " ", Chunk.nat (f.getD 2 0)]))
        ++ [Chunk.lit "\"/>\n    </state>\n"])) ∧
    write_object ⟨"o"⟩ ⟨([], [[0,1]])⟩ (0,0,0) 1 = none :=
  ⟨⟨by decide, (claim_C10_triangulation ⟨"o"⟩ ⟨([], [[0,1,2,3]])⟩ (0,0,0) 1).1 (by decide)⟩,
   (claim_C10_triangulation ⟨"o"⟩ ⟨([], [[0,1]])⟩ (0,0,0) 1).2 ⟨[0,1], by decide, by decide⟩⟩

end Cycles
